import Mathlib

/-!
Shallow embedding of the wry AMT client (src/wry/common.py, src/wry/device.py,
src/wry/monkey.py) and proofs about its transaction layer, enumeration pager
and capability state machines.

Modules `wry.exceptions`, `wry.data_structures` (WryDict, EnablementMap,
RadioButtons) and `wry.decorators` are part of the repository but are not in
the provided sources; where their behaviour matters it is modelled from the
specification and marked as such in doc comments.
-/

namespace Wry

/-- Response document as seen by the transaction layer: the only attribute the
validation path (`common._validate`) inspects is `is_fault()`; the rest of the
document is abstracted as an opaque `body`. -/
structure Doc where
  is_fault : Bool
  body : Nat
deriving DecidableEq, Repr

/-- Modelled from the spec: the error taxonomy of `wry.exceptions` (module not
in the provided sources). `connectFailure` is `AMTConnectFailure`, `wsmanFault`
carries the fault document, `nonZeroReturn` carries the method return code. -/
inductive WryError where
  | connectFailure
  | wsmanFault (doc : Doc)
  | nonZeroReturn (v : Int)
deriving DecidableEq, Repr

/-- Embedding of `common._validate` (src/wry/common.py lines 41-47): a missing
document raises `AMTConnectFailure`; a fault document raises `WSManFault(doc)`
unless `silent`; otherwise the document is returned unchanged. -/
def _validate (doc : Option Doc) (silent : Bool) : Except WryError Doc :=
  match doc with
  | none => .error .connectFailure
  | some d =>
    if ¬ silent ∧ d.is_fault then .error (.wsmanFault d)
    else .ok d

/-- Embedding of `common.wsman_get`: the transport call `client.get` is
abstracted as its returned document (`resp`), then `_validate` is applied. The
`retry` decorator (in `wry.decorators`, not in the provided sources) only
re-issues the transport call, so `resp` is the final transport response. -/
def wsman_get (resp : Option Doc) (silent : Bool) : Except WryError Doc :=
  _validate resp silent

/-- Embedding of `common.wsman_pull`: transport call abstracted as `resp`,
then `_validate`. -/
def wsman_pull (resp : Option Doc) (silent : Bool) : Except WryError Doc :=
  _validate resp silent

/-- Embedding of `common.wsman_enumerate`: transport call abstracted as
`resp`, then `_validate`. -/
def wsman_enumerate (resp : Option Doc) (silent : Bool) : Except WryError Doc :=
  _validate resp silent

/-- Embedding of `common.wsman_put`: transport call abstracted as `resp`,
then `_validate`. -/
def wsman_put (resp : Option Doc) (silent : Bool) : Except WryError Doc :=
  _validate resp silent

/-- Embedding of `common.wsman_invoke`: transport call abstracted as `resp`,
then `_validate`. -/
def wsman_invoke (resp : Option Doc) (silent : Bool) : Except WryError Doc :=
  _validate resp silent

/- ===== Enumeration pager (common.enumerate_resource) ===== -/

/-- Modelled from the spec: one decoded pull response as produced by
`WryDict(doc)['PullResponse']` (`wry.data_structures` is not in the provided
sources). `items` is the per-page decoded value `response['Items'][name]`,
kept opaque; `eos` is whether the `EndOfSequence` element is present. -/
structure Page (α : Type) where
  items : α
  eos : Bool
deriving DecidableEq, Repr

/-- Transport state for the pager: the queue of pull responses the endpoint
will serve, plus counters of enumerate and pull round trips. -/
structure Transport (α : Type) where
  pages : List (Page α)
  enumerateCalls : Nat
  pullCalls : Nat
deriving DecidableEq, Repr

/-- One `wsman_enumerate` round trip as used by `enumerate_resource`: returns
the enumeration context (abstracted away) and counts the call. -/
def enumStep {α : Type} (t : Transport α) : Transport α :=
  { t with enumerateCalls := t.enumerateCalls + 1 }

/-- One `wsman_pull` round trip: serves the next queued page and counts the
call; an empty queue means the transport returned no document. -/
def pullStep {α : Type} (t : Transport α) : Option (Page α × Transport α) :=
  match t.pages with
  | [] => none
  | p :: rest => some (p, { t with pages := rest, pullCalls := t.pullCalls + 1 })

/-- The `while ended is False` loop of `common.enumerate_resource`
(src/wry/common.py lines 110-114): pull a page, append its items, stop when
the page carries `EndOfSequence`. Returns the accumulated items, the number of
pull calls made, and the pages left unserved; `none` models the loop dying on
a transport failure before any page reports end-of-sequence. -/
def pullLoop {α : Type} (pages : List (Page α)) (acc : List α) :
    Option (List α × Nat × List (Page α)) :=
  match pages with
  | [] => none
  | p :: rest =>
    if p.eos then some (acc ++ [p.items], 1, rest)
    else
      match pullLoop rest (acc ++ [p.items]) with
      | none => none
      | some (out, n, remaining) => some (out, n + 1, remaining)

/-- Embedding of `common.enumerate_resource` (src/wry/common.py lines
100-115): one `wsman_enumerate` to obtain the context, then the pull loop. -/
def enumerate_resource {α : Type} (t : Transport α) :
    Option (List α × Transport α) :=
  let t1 := enumStep t
  match pullLoop t1.pages [] with
  | none => none
  | some (out, pulls, remaining) =>
    some (out, { t1 with pages := remaining, pullCalls := t1.pullCalls + pulls })

/- ===== Method invocation return-value decoding (common.invoke_method) ===== -/

/-- Embedding of the response decoding at the tail of `common.invoke_method`
(src/wry/common.py lines 188-192). `returned` is the decoded response as an
association from element name to integer field value; the code reads
`returned[method_name + '_OUTPUT']['ReturnValue']` and raises
`NonZeroReturn` on any non-zero value, returning `not return_value` (= True)
on zero. Modelled from the spec where `WryDict` decoding is concerned: the
`ReturnValue` field decodes to an integer. `none` models the `KeyError` of a
response that lacks the output wrapper (an invocation that never completed). -/
def invoke_method_decode (method_name : String) (returned : List (String × Int)) :
    Option (Except WryError Bool) :=
  match returned.lookup (method_name ++ "_OUTPUT") with
  | none => none
  | some return_value =>
    if return_value ≠ 0 then some (.error (.nonZeroReturn return_value))
    else some (.ok true)

/- ===== Power capability (device.AMTPower) ===== -/

/-- Embedding of the `StateMap` namedtuple (src/wry/device.py line 26). -/
structure StateMap where
  state : String
  sub_state : Option String
deriving DecidableEq, Repr

/-- Embedding of `AMT_POWER_STATE_MAP` (src/wry/device.py lines 36-55): the
index in this list is the wire `PowerState` code; entry 0 is `None`. -/
def AMT_POWER_STATE_MAP : List (Option StateMap) :=
  [ none,
    some ⟨"other", none⟩,
    some ⟨"on", none⟩,
    some ⟨"sleep", some "Light"⟩,
    some ⟨"sleep", some "Deep"⟩,
    some ⟨"cycle", some "(Off - Soft)"⟩,
    some ⟨"off", some "hard"⟩,
    some ⟨"hibernate", some "(Off - Soft)"⟩,
    some ⟨"off", some "soft"⟩,
    some ⟨"cycle", some "(Off - Hard)"⟩,
    some ⟨"Master Bus Reset", none⟩,
    some ⟨"Diagnostic Interrupt (NMI)", none⟩,
    some ⟨"off", some "Soft Graceful"⟩,
    some ⟨"off", some "Hard Graceful"⟩,
    some ⟨"Master Bus Reset", some "Graceful"⟩,
    some ⟨"cycle", some "(Off - Soft Graceful)"⟩,
    some ⟨"cycle", some "(Off - Hard Graceful)"⟩,
    some ⟨"Diagnostic Interrupt (INIT)", none⟩ ]

/-- Python runtime values, as far as `AMTPower.toggle` manipulates them: the
decoded power state is a `StateMap` namedtuple (a tuple of a string and an
optional-string sub-state), and it is compared with `==` against the string
literals `'on'` and `'off'`. -/
inductive PyVal where
  | pstr (s : String)
  | pint (n : Int)
  | pnone
  | ptuple (a b : PyVal)
deriving DecidableEq, Repr

/-- Python `==` on the values of `PyVal`: strings compare by content, tuples
elementwise; a tuple (hence a namedtuple such as `StateMap`) never equals a
string, and comparison across different kinds yields False. -/
def pyEq : PyVal → PyVal → Bool
  | .pstr a, .pstr b => a == b
  | .pint a, .pint b => a == b
  | .pnone, .pnone => true
  | .ptuple a b, .ptuple c d => pyEq a c && pyEq b d
  | _, _ => false

/-- The Python value of a `StateMap` namedtuple: a 2-tuple of the state label
and the sub-state (`None` when absent). -/
def pyOfStateMap (s : StateMap) : PyVal :=
  .ptuple (.pstr s.state) (match s.sub_state with
    | none => .pnone
    | some t => .pstr t)

/-- Outcome of `AMTPower.toggle` (src/wry/device.py lines 243-254). -/
inductive ToggleResult where
  | sentPowerOff
  | sentPowerOn
  | raisedError
deriving DecidableEq, Repr

/-- Embedding of `AMTPower.toggle` (src/wry/device.py lines 243-254): the
decoded state is compared with `==` against the strings `'on'` and `'off'`;
`turn_off()` sends `RequestPowerStateChange(8)` and `turn_on()` sends code 2
(the index of `('on', None)` in the table); the final branch executes
`raise SomeError` where `SomeError` is an undefined name, so it raises a
`NameError` and sends no request. -/
def toggle (state : PyVal) : ToggleResult :=
  if pyEq state (.pstr "on") then .sentPowerOff
  else if pyEq state (.pstr "off") then .sentPowerOn
  else .raisedError

/- ===== Opt-in TTL (device.AMTOptIn.code_ttl setter) ===== -/

/-- Embedding of the `code_ttl` setter (src/wry/device.py lines 479-486):
`assert type(value) == int` holds only for values of exact type `int` (a bool
or string is not), `assert 60 <= value <= 900` bounds the range, and either
assertion failing is caught and re-raised as the descriptive `TypeError`; on
success the `OptInCodeTimeout` update is issued with the value (modelled as
returning it). -/
def code_ttl_set (value : PyVal) : Except String Int :=
  match value with
  | .pint n =>
    if 60 ≤ n ∧ n ≤ 900 then .ok n
    else .error "TTL (in seconds) must be an integer between 60 and 900."
  | _ => .error "TTL (in seconds) must be an integer between 60 and 900."

/- ===== KVM port enablement (device.AMTKVM.enabled_ports) ===== -/

/-- Device-side fields the KVM port logic reads and writes:
`IPS_KVMRedirectionSettingData/Is5900PortEnabled`,
`AMT_RedirectionService/ListenerEnabled`, and whether the first
`AMT_TLSSettingData` instance reports `Enabled`. -/
structure KVMDevice where
  is5900 : Bool
  listenerOn : Bool
  tls : Bool
deriving DecidableEq, Repr

/-- Embedding of the `enabled_ports` getter (src/wry/device.py lines
298-316): an `EnablementMap` over (5900, 16994, 16995) — modelled from the
spec, `wry.data_structures` not being in the provided sources, as the list of
members toggled on — toggles 5900 when `Is5900PortEnabled`, 16994 when
`ListenerEnabled`, and 16995 when additionally TLS reports enabled. Every
access to the `enabled_ports` property performs this fresh derivation by
querying the device. -/
def enabled_ports_get (d : KVMDevice) : List Nat :=
  (if d.is5900 then [5900] else []) ++
  (if d.listenerOn then 16994 :: (if d.tls then [16995] else []) else [])

/-- A `put` issued by the `enabled_ports` setter: the loop only has put
branches for ports 5900 (`Is5900PortEnabled`) and 16994 (`ListenerEnabled`);
no put exists for port 16995. -/
inductive KVMPut where
  | is5900Port (enable : Bool)
  | listenerEnabled (enable : Bool)
deriving DecidableEq, Repr

/-- Outcome of an accepted `enabled_ports` update: final device state, puts
issued in loop order, and the number of `enabled_ports` property accesses
performed (each one re-queries the device). -/
structure KVMSetOutcome where
  device : KVMDevice
  puts : List KVMPut
  getterQueries : Nat
deriving DecidableEq, Repr

/-- The setter loop of `enabled_ports` (src/wry/device.py lines 336-342): for
each port of the universe in order, when its target membership differs from
the `enabled` snapshot taken before the loop, issue the corresponding put (for
5900 or 16994; none exists for 16995) and then evaluate
`self.enabled_ports.toggle(port)` — an access to the property, which
re-queries the device and toggles the fresh, immediately discarded object. -/
def kvmSetLoop (d : KVMDevice) (ports : List Nat) (values enabled : List Nat) :
    KVMSetOutcome :=
  match ports with
  | [] => ⟨d, [], 0⟩
  | p :: rest =>
    if values.contains p = enabled.contains p then
      kvmSetLoop d rest values enabled
    else
      let step : KVMDevice × List KVMPut :=
        if p = 5900 then
          ({ d with is5900 := values.contains p }, [.is5900Port (values.contains p)])
        else if p = 16994 then
          ({ d with listenerOn := values.contains p }, [.listenerEnabled (values.contains p)])
        else (d, [])
      let restOut := kvmSetLoop step.1 rest values enabled
      ⟨restOut.device, step.2 ++ restOut.puts, 1 + restOut.getterQueries⟩

/-- Embedding of the `enabled_ports` setter (src/wry/device.py lines
318-343): two `enabled_ports` property accesses take the universe and the
current-enablement snapshot (counted as 2 getter queries); validation rejects
out-of-universe ports, then newly enabling 16995 is rejected unless 16994 is
in the target set and the device reports TLS enabled (checked by walking
`AMT_TLSSettingData`); an accepted update runs the port loop. -/
def enabled_ports_set (d : KVMDevice) (values : List Nat) :
    Except String KVMSetOutcome :=
  let ports : List Nat := [5900, 16994, 16995]
  let enabled := enabled_ports_get d
  let run : KVMSetOutcome :=
    let out := kvmSetLoop d ports values enabled
    ⟨out.device, out.puts, 2 + out.getterQueries⟩
  if ¬ values.filter (fun v => ¬ ports.contains v = true) = [] then
    .error "Invalid port(s) specified."
  else if values.contains 16995 = true ∧ enabled.contains 16995 = false then
    if values.contains 16994 = false then
      .error "Port 16995 cannot be enabled unless port 16994 is enabled also."
    else if d.tls = false then
      .error "Port 16995 can only be set by enabling both TLS and port 16994."
    else .ok run
  else .ok run

/-- Ports whose target membership differs from the current-enablement
snapshot, in universe order. -/
def changedPorts (values enabled : List Nat) : List Nat :=
  [5900, 16994, 16995].filter (fun p => ¬ values.contains p = enabled.contains p)

/-- The put the setter loop issues for a changed port, if any. -/
def putForPort (values : List Nat) (p : Nat) : Option KVMPut :=
  if p = 5900 then some (.is5900Port (values.contains p))
  else if p = 16994 then some (.listenerEnabled (values.contains p))
  else none

/- ===== Redirection feature bitset (device.AMTRedirection) ===== -/

/-- Embedding of `AMTRedirection._state_mapping` (src/wry/device.py lines
397-414). -/
def redirection_state_mapping : List (Nat × String) :=
  [ (0, "Unknown"),
    (1, "Other"),
    (2, "Enabled"),
    (3, "Disabled"),
    (4, "Shutting Down"),
    (5, "Not Applicable"),
    (6, "Enabled but Offline"),
    (7, "In Test"),
    (8, "Deferred"),
    (9, "Quiesce"),
    (10, "Starting"),
    (11, "DMTF Reserved"),
    (32768, "IDER and SOL are disabled"),
    (32769, "IDER is enabled and SOL is disabled"),
    (32770, "SOL is enabled and IDER is disabled"),
    (32771, "IDER and SOL are enabled") ]

/-- Errors of the `enabled_features` getter: `LookupError` carrying the known
label, or `KeyError` carrying the unknown code. -/
inductive RedirectionError where
  | lookupError (label : String)
  | keyError (state : Nat)
deriving DecidableEq, Repr

/-- Embedding of the `enabled_features` getter (src/wry/device.py lines
417-430): for a code at or above 32768 it toggles IDER for 32769/32771 and
SoL for 32770/32771 on an `EnablementMap('SoL', 'IDER')` (modelled from the
spec as the list of toggled members in toggle order, IDER first as in the
source); for smaller codes it raises `LookupError` with the known label when
the code is a key of `_state_mapping`, else `KeyError` with the code. -/
def enabled_features_get (state : Nat) : Except RedirectionError (List String) :=
  if 32768 ≤ state then
    .ok ((if state = 32769 ∨ state = 32771 then ["IDER"] else []) ++
         (if state = 32770 ∨ state = 32771 then ["SoL"] else []))
  else
    match redirection_state_mapping.lookup state with
    | some label => .error (.lookupError label)
    | none => .error (.keyError state)

/-- Embedding of the `enabled_features` setter (src/wry/device.py lines
432-443): an empty collection writes `EnabledState` 32768; a collection equal
as a set to both features writes 32771; otherwise the first element alone
selects 32770 for SoL or 32769 for IDER; any other collection raises
`ValueError` (the message is modelled by a fixed string; the source line
building it is missing a closing parenthesis). -/
def enabled_features_set : List String → Except String Nat
  | [] => .ok 32768
  | f :: rest =>
    if ((f :: rest).contains "SoL" && (f :: rest).contains "IDER" &&
        (f :: rest).all (fun x => x == "SoL" || x == "IDER")) then .ok 32771
    else if f = "SoL" then .ok 32770
    else if f = "IDER" then .ok 32769
    else .error "Invalid data provided."

/- ===== Boot medium selection (device.AMTBoot.medium setter) ===== -/

/-- One supported boot source as decoded from enumerating
`CIM_BootSourceSetting`: its `StructuredBootString` (kept as a character
list, because the medium lookup is a Python substring test on the raw
string) and its `InstanceID`. -/
structure BootSource where
  structuredBootString : List Char
  instanceID : String
deriving DecidableEq, Repr

/-- Whether `needle` is an initial segment of `hay`. -/
def beginsWith : List Char → List Char → Bool
  | [], _ => true
  | _ :: _, [] => false
  | a :: as, b :: bs => a == b && beginsWith as bs

/-- Python substring test `needle in hay` on strings. -/
def containsSub (needle : List Char) : List Char → Bool
  | [] => beginsWith needle []
  | c :: rest => beginsWith needle (c :: rest) || containsSub needle rest

/-- The source-matching loop of the `medium` setter (src/wry/device.py lines
527-532): the first source whose structured boot string contains the
requested value wins; the loop's `else` clause raises `LookupError`. -/
def findBootSource (value : List Char) : List BootSource → Except String String
  | [] => .error "This medium is not supported by the device"
  | s :: rest =>
    if containsSub value s.structuredBootString then .ok s.instanceID
    else findBootSource value rest

/-- A method invocation sent through `common.invoke_method`, recorded as the
method name and the selector values supplied for it. -/
structure Invocation where
  method_name : String
  selector : List String
deriving DecidableEq, Repr

/-- Embedding of the `medium` setter (src/wry/device.py lines 513-547): after
reading and zeroing `AMT_BootSettingData` (gets and puts, not method
invocations), it looks up the first supported boot source whose structured
boot string contains the requested value; the `LookupError` is raised before
`common.invoke_method` is ever reached, so a failed lookup produces no
invocation; on success `ChangeBootOrder` is invoked with the matched
`InstanceID` and the current boot-config instance as selector values, then
`_set_boot_config_role` invokes `SetBootConfigRole`. -/
def medium_set (sources : List BootSource) (value : List Char)
    (config_instance : String) : Except String (List Invocation) :=
  match findBootSource value sources with
  | .error e => .error e
  | .ok instance_id =>
    .ok [ ⟨"ChangeBootOrder", ["InstanceID", instance_id, config_instance]⟩,
          ⟨"SetBootConfigRole", ["InstanceID", "Intel(r) AMT: Boot Configuration 0"]⟩ ]

/- ===== Monkey-patched ClientOptions copy (monkey.copy_client_options) ===== -/

/-- Observable state of a `pywsman.ClientOptions` collaborator: the values its
`get_*` accessors report, as an association from option name to value. A
freshly constructed object carries the default (empty) state. -/
structure ClientOptions where
  settings : List (String × Int)
deriving DecidableEq, Repr

/-- A newly constructed `pywsman.ClientOptions()` in its default state. -/
def defaultClientOptions : ClientOptions := ⟨[]⟩

/-- Value reported by a `get_*` accessor (default when never set). -/
def co_get (o : ClientOptions) (k : String) : Int :=
  (o.settings.lookup k).getD 0

/-- Effect of a `set_*` accessor: the new binding shadows any older one. -/
def co_set (o : ClientOptions) (k : String) (v : Int) : ClientOptions :=
  ⟨(k, v) :: o.settings⟩

/-- Embedding of `monkey.copy_client_options` (src/wry/monkey.py lines 7-14):
a fresh `ClientOptions` is constructed, then for every `get_*` attribute name
the value is read from `self` and written back to `self` (not to
`new_options`), and the fresh object is returned. The result pair is
(returned object, `self` after the loop); `getters` is the list of option
names behind the object's `get_*` attributes. -/
def copy_client_options (getters : List String) (o : ClientOptions) :
    ClientOptions × ClientOptions :=
  (defaultClientOptions, getters.foldl (fun acc k => co_set acc k (co_get acc k)) o)

end Wry

/- ===================== Theorems ===================== -/

namespace Wry

/-- Claim C1: for each of the five transaction-layer operations, a missing
transport document fails with the connect-failure error; a fault document with
`silent = false` fails with `WSManFault` carrying exactly that document; with
`silent = true` the fault document is returned unmodified; a non-fault
document is returned unchanged. -/
theorem transaction_layer_validation (resp : Option Doc) (silent : Bool) :
    ∀ op ∈ [wsman_get, wsman_put, wsman_enumerate, wsman_pull, wsman_invoke],
      (resp = none → op resp silent = .error .connectFailure) ∧
      (∀ d, resp = some d → d.is_fault = true → silent = false →
        op resp silent = .error (.wsmanFault d)) ∧
      (∀ d, resp = some d → silent = true → op resp silent = .ok d) ∧
      (∀ d, resp = some d → d.is_fault = false → op resp silent = .ok d) := by
  intro op hop
  have hval :
      (resp = none → _validate resp silent = .error .connectFailure) ∧
      (∀ d, resp = some d → d.is_fault = true → silent = false →
        _validate resp silent = .error (.wsmanFault d)) ∧
      (∀ d, resp = some d → silent = true → _validate resp silent = .ok d) ∧
      (∀ d, resp = some d → d.is_fault = false → _validate resp silent = .ok d) := by
    refine ⟨?_, ?_, ?_, ?_⟩
    · rintro rfl; rfl
    · rintro d rfl hf rfl; simp [_validate, hf]
    · rintro d rfl rfl; simp [_validate]
    · rintro d rfl hf; simp [_validate, hf]
  simp only [List.mem_cons, List.mem_singleton] at hop
  rcases hop with rfl | rfl | rfl | rfl | rfl | h
  · exact hval
  · exact hval
  · exact hval
  · exact hval
  · exact hval
  · cases h

/-- Witness for C1: concrete evaluations through the claim theorem — a fault
document is raised as `WSManFault` when not silent, and returned unmodified
when silent. -/
theorem transaction_layer_validation_witness :
    wsman_get (some ⟨true, 7⟩) false = .error (.wsmanFault ⟨true, 7⟩) ∧
    wsman_invoke (some ⟨true, 7⟩) true = .ok ⟨true, 7⟩ ∧
    wsman_put none false = .error .connectFailure := by
  refine ⟨?_, ?_, ?_⟩
  · exact ((transaction_layer_validation (some ⟨true, 7⟩) false wsman_get
      (by simp)).2.1 ⟨true, 7⟩ rfl rfl rfl)
  · exact ((transaction_layer_validation (some ⟨true, 7⟩) true wsman_invoke
      (by simp)).2.2.1 ⟨true, 7⟩ rfl rfl)
  · exact ((transaction_layer_validation none false wsman_put
      (by simp)).1 rfl)

/-- Helper for C2: running the pull loop over a queue that starts with pages
that do not report end-of-sequence followed by a final page that does yields
the pages' items appended to the accumulator in page order, one pull per
page, and leaves the remainder of the queue untouched. -/
theorem pullLoop_spec {α : Type} (front : List (Page α)) (last : Page α)
    (rest : List (Page α)) (acc : List α)
    (hfront : ∀ p ∈ front, p.eos = false) (hlast : last.eos = true) :
    pullLoop (front ++ last :: rest) acc =
      some (acc ++ front.map Page.items ++ [last.items], front.length + 1, rest) := by
  induction front generalizing acc with
  | nil => simp [pullLoop, hlast]
  | cons p ps ih =>
    have hp : p.eos = false := hfront p (by simp)
    have hps : ∀ q ∈ ps, q.eos = false := fun q hq => hfront q (by simp [hq])
    have hpl : pullLoop ((p :: ps) ++ last :: rest) acc =
        match pullLoop (ps ++ last :: rest) (acc ++ [p.items]) with
        | none => none
        | some (out, n, remaining) => some (out, n + 1, remaining) := by
      simp [pullLoop, hp]
    rw [hpl, ih (acc ++ [p.items]) hps]
    simp [List.append_assoc]

/-- Claim C2: for an enumeration whose transport serves pages 1..N with pages
1..N-1 not reporting end-of-sequence and page N reporting it,
`enumerate_resource` makes exactly one enumerate call and exactly N pull
calls, stops pulling at end-of-sequence (the queue beyond page N is left
unserved), and returns the pages' items in page order with nothing reordered,
deduplicated or dropped — including the final page's items. -/
theorem enumerate_resource_pagination {α : Type} (front : List (Page α))
    (last : Page α) (rest : List (Page α)) (e k : Nat)
    (hfront : ∀ p ∈ front, p.eos = false) (hlast : last.eos = true) :
    enumerate_resource { pages := front ++ last :: rest,
                         enumerateCalls := e, pullCalls := k } =
      some (front.map Page.items ++ [last.items],
            { pages := rest, enumerateCalls := e + 1,
              pullCalls := k + (front.length + 1) }) := by
  simp [enumerate_resource, enumStep, pullLoop_spec front last rest [] hfront hlast]

/-- Witness for C2: a three-page enumeration (end-of-sequence on page 3)
returns the three pages' items in order with exactly three pulls and one
enumerate call, leaving a fourth queued page unserved. -/
theorem enumerate_resource_pagination_witness :
    enumerate_resource { pages := [⟨10, false⟩, ⟨20, false⟩, ⟨30, true⟩, ⟨40, true⟩],
                         enumerateCalls := 0, pullCalls := 0 } =
      some ([10, 20, 30],
            { pages := [(⟨40, true⟩ : Page Nat)], enumerateCalls := 1, pullCalls := 3 }) := by
  have h := enumerate_resource_pagination
    (α := Nat) [⟨10, false⟩, ⟨20, false⟩] ⟨30, true⟩ [⟨40, true⟩] 0 0
    (by decide) rfl
  simpa using h

/-- Claim C3: for every completed invocation of any method, the decoding at
the tail of `invoke_method` reads `<MethodName>_OUTPUT/ReturnValue`; a value
of 0 succeeds with no error, and every non-zero value fails with
`NonZeroReturn` carrying exactly that value. -/
theorem invoke_method_return_value (method_name : String)
    (returned : List (String × Int)) (rv : Int)
    (hrv : returned.lookup (method_name ++ "_OUTPUT") = some rv) :
    (rv = 0 → invoke_method_decode method_name returned = some (.ok true)) ∧
    (rv ≠ 0 → invoke_method_decode method_name returned =
        some (.error (.nonZeroReturn rv))) := by
  constructor
  · rintro rfl; simp [invoke_method_decode, hrv]
  · intro h; simp [invoke_method_decode, hrv, h]

/-- Witness for C3: a `RequestPowerStateChange` response with `ReturnValue`
0 succeeds; one with `ReturnValue` 2 fails with `NonZeroReturn 2`. -/
theorem invoke_method_return_value_witness :
    invoke_method_decode "RequestPowerStateChange"
      [("RequestPowerStateChange_OUTPUT", 0)] = some (.ok true) ∧
    invoke_method_decode "RequestPowerStateChange"
      [("RequestPowerStateChange_OUTPUT", 2)] =
      some (.error (.nonZeroReturn 2)) := by
  constructor
  · exact (invoke_method_return_value "RequestPowerStateChange"
      [("RequestPowerStateChange_OUTPUT", 0)] 0 (by decide)).1 rfl
  · exact (invoke_method_return_value "RequestPowerStateChange"
      [("RequestPowerStateChange_OUTPUT", 2)] 2 (by decide)).2 (by decide)

/-- Claim C4 (evidence of the code bug): wire code 2 decodes to the primary
state label `on`, yet `toggle` on that decoded state — indeed on every
decoded `StateMap` — takes the error branch, because a namedtuple never
compares equal to the string literals `'on'` or `'off'`; control always
reaches `raise SomeError` (an undefined name) and no power transition is ever
issued, contradicting the docstring and the claim that state `on` yields the
power-off transition. -/
theorem toggle_always_raises :
    AMT_POWER_STATE_MAP.get? 2 = some (some ⟨"on", none⟩) ∧
    toggle (pyOfStateMap ⟨"on", none⟩) = .raisedError ∧
    ∀ s : StateMap, toggle (pyOfStateMap s) = .raisedError := by
  refine ⟨rfl, rfl, fun s => rfl⟩

/-- Claim C8: the `code_ttl` setter accepts exactly the integers in the
closed range [60, 900], issuing the update with the accepted value; every
out-of-range integer and every non-integer value raises the descriptive
`TypeError` and sends no request. -/
theorem code_ttl_bounds (value : PyVal) :
    (∀ n : Int, value = .pint n → 60 ≤ n → n ≤ 900 →
      code_ttl_set value = .ok n) ∧
    (∀ n : Int, value = .pint n → (n < 60 ∨ 900 < n) →
      code_ttl_set value =
        .error "TTL (in seconds) must be an integer between 60 and 900.") ∧
    ((∀ n : Int, ¬ value = .pint n) →
      code_ttl_set value =
        .error "TTL (in seconds) must be an integer between 60 and 900.") := by
  refine ⟨?_, ?_, ?_⟩
  · rintro n rfl h1 h2
    simp [code_ttl_set, h1, h2]
  · rintro n rfl h
    have hno : ¬ (60 ≤ n ∧ n ≤ 900) := by omega
    simp [code_ttl_set, hno]
  · intro h
    cases value with
    | pint n => exact absurd rfl (h n)
    | pstr s => rfl
    | pnone => rfl
    | ptuple a b => rfl

/-- Witness for C8: 59 and 901 are rejected, 60 and 900 accepted, and a
string is rejected as a non-integer. -/
theorem code_ttl_bounds_witness :
    code_ttl_set (.pint 59) =
      .error "TTL (in seconds) must be an integer between 60 and 900." ∧
    code_ttl_set (.pint 901) =
      .error "TTL (in seconds) must be an integer between 60 and 900." ∧
    code_ttl_set (.pint 60) = .ok 60 ∧
    code_ttl_set (.pint 900) = .ok 900 ∧
    code_ttl_set (.pstr "60") =
      .error "TTL (in seconds) must be an integer between 60 and 900." := by
  refine ⟨?_, ?_, ?_, ?_, ?_⟩
  · exact (code_ttl_bounds (.pint 59)).2.1 59 rfl (Or.inl (by decide))
  · exact (code_ttl_bounds (.pint 901)).2.1 901 rfl (Or.inr (by decide))
  · exact (code_ttl_bounds (.pint 60)).1 60 rfl (by decide) (by decide)
  · exact (code_ttl_bounds (.pint 900)).1 900 rfl (by decide) (by decide)
  · exact (code_ttl_bounds (.pstr "60")).2.2 (fun n h => PyVal.noConfusion h)

/-- Helper for C10: writing an option's current value back to the same object
leaves every observable getter value unchanged. -/
theorem co_get_set_self (o : ClientOptions) (k j : String) :
    co_get (co_set o k (co_get o k)) j = co_get o j := by
  by_cases hjk : j = k
  · subst hjk
    simp [co_get, co_set, List.lookup]
  · have hb : (j == k) = false := beq_eq_false_iff_ne.mpr hjk
    simp [co_get, co_set, List.lookup, hb]

/-- Claim C10: the monkey-patched `__copy__` returns a newly constructed
`ClientOptions` in its default state — none of the original object's settings
are transferred to it — while every `get_*` value is merely re-applied to the
original object itself, leaving it observably unchanged; so the copy taken by
`invoke_method` before adding selectors does not preserve the caller's option
settings. -/
theorem copy_client_options_discards (getters : List String) (o : ClientOptions) :
    (copy_client_options getters o).1 = defaultClientOptions ∧
    ∀ k, co_get (copy_client_options getters o).2 k = co_get o k := by
  refine ⟨rfl, ?_⟩
  intro k
  simp only [copy_client_options]
  induction getters generalizing o with
  | nil => rfl
  | cons g gs ih =>
    simp only [List.foldl_cons]
    calc co_get (List.foldl (fun acc k => co_set acc k (co_get acc k))
            (co_set o g (co_get o g)) gs) k
        = co_get (co_set o g (co_get o g)) k := ih _
      _ = co_get o k := co_get_set_self o g k

/-- Helper for C5: the port loop over the universe (5900, 16994, 16995)
issues exactly the puts of the changed ports that have a put branch, in
universe order, and performs one `enabled_ports` re-query per changed port. -/
theorem kvmSetLoop_spec (d : KVMDevice) (values enabled : List Nat) :
    (kvmSetLoop d [5900, 16994, 16995] values enabled).puts =
      (changedPorts values enabled).filterMap (putForPort values) ∧
    (kvmSetLoop d [5900, 16994, 16995] values enabled).getterQueries =
      (changedPorts values enabled).length := by
  by_cases h1 : (5900 ∈ values ↔ 5900 ∈ enabled) <;>
  by_cases h2 : (16994 ∈ values ↔ 16994 ∈ enabled) <;>
  by_cases h3 : (16995 ∈ values ↔ 16995 ∈ enabled) <;>
    simp [kvmSetLoop, changedPorts, putForPort, h1, h2, h3]

/-- Claim C5 as amended: newly enabling port 16995 is rejected with a
validation error (and no put issued) unless 16994 is in the target set and
TLS is enabled on the device; and every accepted update issues exactly one
put per changed port among 5900 and 16994 — no put for unchanged ports and
none ever for port 16995 — while each changed port additionally triggers a
re-query of the device through the `enabled_ports` property (2 accesses
before the loop plus one per changed port), rather than updating a persisted
in-memory snapshot. -/
theorem enabled_ports_set_spec (d : KVMDevice) (values : List Nat) :
    (values.filter (fun v => ¬ ([5900, 16994, 16995] : List Nat).contains v = true) = [] →
      values.contains 16995 = true → (enabled_ports_get d).contains 16995 = false →
      values.contains 16994 = false →
      enabled_ports_set d values =
        .error "Port 16995 cannot be enabled unless port 16994 is enabled also.") ∧
    (values.filter (fun v => ¬ ([5900, 16994, 16995] : List Nat).contains v = true) = [] →
      values.contains 16995 = true → (enabled_ports_get d).contains 16995 = false →
      values.contains 16994 = true → d.tls = false →
      enabled_ports_set d values =
        .error "Port 16995 can only be set by enabling both TLS and port 16994.") ∧
    (∀ out, enabled_ports_set d values = .ok out →
      out.puts = (changedPorts values (enabled_ports_get d)).filterMap (putForPort values) ∧
      out.getterQueries = 2 + (changedPorts values (enabled_ports_get d)).length) := by
  refine ⟨?_, ?_, ?_⟩
  · intro hvalid h995 hnot995 hno994
    simp only [enabled_ports_set]
    rw [if_neg (not_not_intro hvalid), if_pos ⟨h995, hnot995⟩, if_pos hno994]
  · intro hvalid h995 hnot995 h994 htls
    simp only [enabled_ports_set]
    rw [if_neg (not_not_intro hvalid), if_pos ⟨h995, hnot995⟩,
      if_neg (by rw [h994]; simp), if_pos htls]
  · intro out hout
    have hloop := kvmSetLoop_spec d values (enabled_ports_get d)
    simp only [enabled_ports_set] at hout
    split_ifs at hout <;>
      first
        | exact Except.noConfusion hout
        | (injection hout with h
           subst h
           exact ⟨hloop.1, congrArg (fun n => 2 + n) hloop.2⟩)

/-- Witness for C5: enabling 16995 with 16994 absent from the target set is
rejected, and the accepted update {5900, 16994} on a device with only the
listener enabled issues exactly the one put for its one changed port. -/
theorem enabled_ports_set_spec_witness :
    enabled_ports_set ⟨false, false, true⟩ [16995] =
      .error "Port 16995 cannot be enabled unless port 16994 is enabled also." ∧
    (⟨⟨true, true, false⟩, [KVMPut.is5900Port true], 3⟩ : KVMSetOutcome).puts =
      (changedPorts [5900, 16994] (enabled_ports_get ⟨false, true, false⟩)).filterMap
        (putForPort [5900, 16994]) := by
  constructor
  · exact (enabled_ports_set_spec ⟨false, false, true⟩ [16995]).1
      (by decide) (by decide) (by decide) (by decide)
  · exact ((enabled_ports_set_spec ⟨false, true, false⟩ [5900, 16994]).2.2
      ⟨⟨true, true, false⟩, [KVMPut.is5900Port true], 3⟩ rfl).1

/-- Claim C5 counterexample: with TLS enabled, listener disabled, and target
set {16994, 16995}, the update passes validation, both 16994 and 16995 are in
the symmetric difference, yet only one put — `ListenerEnabled` for 16994 —
is issued (no put exists for 16995), and the device is re-queried during the
loop (4 `enabled_ports` accesses in total, not zero re-queries). -/
theorem enabled_ports_put_per_port_counterexample :
    enabled_ports_set ⟨false, false, true⟩ [16994, 16995] =
      .ok ⟨⟨false, true, true⟩, [KVMPut.listenerEnabled true], 4⟩ ∧
    changedPorts [16994, 16995] (enabled_ports_get ⟨false, false, true⟩) =
      [16994, 16995] := by
  exact ⟨rfl, rfl⟩

/-- Claim C6 as amended: the four valid feature sets encode to exactly the
codes 32768 (none), 32770 (SoL), 32769 (IDER), 32771 (both, in either
order), and decoding each code returns the original feature set (for 32771 up
to order); but a collection fails validation precisely when it is nonempty,
not set-equal to both features, and its first element is neither SoL nor
IDER — so a collection beginning with SoL or IDER is encoded from its first
element alone even when the rest lies outside the universe. -/
theorem enabled_features_encode_decode :
    (enabled_features_set [] = .ok 32768 ∧
     enabled_features_set ["SoL"] = .ok 32770 ∧
     enabled_features_set ["IDER"] = .ok 32769 ∧
     enabled_features_set ["SoL", "IDER"] = .ok 32771 ∧
     enabled_features_set ["IDER", "SoL"] = .ok 32771) ∧
    (enabled_features_get 32768 = .ok [] ∧
     enabled_features_get 32770 = .ok ["SoL"] ∧
     enabled_features_get 32769 = .ok ["IDER"] ∧
     enabled_features_get 32771 = .ok ["IDER", "SoL"] ∧
     (["IDER", "SoL"] : List String).Perm ["SoL", "IDER"]) ∧
    (∀ f rest, enabled_features_set (f :: rest) = .error "Invalid data provided." ↔
      (¬ ((f :: rest).contains "SoL" && (f :: rest).contains "IDER" &&
          (f :: rest).all (fun x => x == "SoL" || x == "IDER")) = true ∧
       ¬ f = "SoL" ∧ ¬ f = "IDER")) := by
  refine ⟨⟨rfl, rfl, rfl, rfl, rfl⟩, ⟨rfl, rfl, rfl, rfl, by decide⟩, ?_⟩
  intro f rest
  simp only [enabled_features_set]
  split_ifs with h1 h2 h3 <;> simp_all

/-- Witness for C6: a collection starting with an out-of-universe element is
rejected, via the validation characterization. -/
theorem enabled_features_encode_decode_witness :
    enabled_features_set ["junk"] = .error "Invalid data provided." :=
  (enabled_features_encode_decode.2.2 "junk" []).mpr (by decide)

/-- Claim C6 counterexample: the collection ['SoL', 'junk'], whose feature
set is none of the four valid sets (it contains 'junk'), is not rejected —
the setter encodes it from its first element alone to 32770. -/
theorem enabled_features_set_counterexample :
    enabled_features_set ["SoL", "junk"] = .ok 32770 ∧
    "junk" ∈ (["SoL", "junk"] : List String) ∧
    ¬ "junk" ∈ (["SoL", "IDER"] : List String) := by
  exact ⟨rfl, by decide, by decide⟩

/-- Helper for C7: a lookup misses an association list none of whose keys
match. -/
theorem lookup_none_of_no_key (l : List (Nat × String)) (a : Nat)
    (h : ∀ p ∈ l, ¬ a = p.1) : l.lookup a = none := by
  induction l with
  | nil => rfl
  | cons p ps ih =>
    obtain ⟨k, v⟩ := p
    have hp : (a == k) = false := beq_eq_false_iff_ne.mpr (h (k, v) (by simp))
    have hrest := ih (fun q hq => h q (List.mem_cons_of_mem _ hq))
    simp only [List.lookup, hp]
    exact hrest

/-- Claim C7 as amended: for every `EnabledState` code below 32768 the getter
raises — `LookupError` carrying the known label when the code is a key of the
state table (exactly the generic codes 0 through 11), `KeyError` carrying the
code otherwise; but a code at or above 32768 other than the four valid
redirection codes does not raise: it is decoded as the empty feature set. -/
theorem enabled_features_get_unknown (state : Nat) :
    (∀ label, state < 32768 →
      redirection_state_mapping.lookup state = some label →
      enabled_features_get state = .error (.lookupError label)) ∧
    (state < 32768 → redirection_state_mapping.lookup state = none →
      enabled_features_get state = .error (.keyError state)) ∧
    (32768 ≤ state → ¬ state = 32768 → ¬ state = 32769 → ¬ state = 32770 →
      ¬ state = 32771 → enabled_features_get state = .ok []) ∧
    (state < 32768 →
      ((∃ label, redirection_state_mapping.lookup state = some label) ↔ state ≤ 11)) := by
  refine ⟨?_, ?_, ?_, ?_⟩
  · intro label hlt hlk
    have h : ¬ 32768 ≤ state := by omega
    simp [enabled_features_get, h, hlk]
  · intro hlt hlk
    have h : ¬ 32768 ≤ state := by omega
    simp [enabled_features_get, h, hlk]
  · intro hge h0 h1 h2 h3
    simp [enabled_features_get, hge, h0, h1, h2, h3]
  · intro hlt
    constructor
    · rintro ⟨label, hl⟩
      by_contra hgt
      rw [lookup_none_of_no_key _ _ ?_] at hl
      · exact Option.noConfusion hl
      · intro p hp
        fin_cases hp <;> simp_all <;> omega
    · intro hle
      interval_cases state <;> exact ⟨_, rfl⟩

/-- Witness for C7: code 3 (a generic table key) raises `LookupError` with
its label, code 12 (entirely unknown) raises `KeyError`, and code 32772
decodes as the empty feature set. -/
theorem enabled_features_get_unknown_witness :
    enabled_features_get 3 = .error (.lookupError "Disabled") ∧
    enabled_features_get 12 = .error (.keyError 12) ∧
    enabled_features_get 32772 = .ok [] := by
  refine ⟨?_, ?_, ?_⟩
  · exact (enabled_features_get_unknown 3).1 "Disabled" (by decide) (by decide)
  · exact (enabled_features_get_unknown 12).2.1 (by decide) (by decide)
  · exact (enabled_features_get_unknown 32772).2.2.1
      (by decide) (by decide) (by decide) (by decide) (by decide)

/-- Claim C7 counterexample: code 32772 lies outside the four valid
redirection codes, yet the getter raises neither `LookupError` nor
`KeyError` — it returns the empty feature set. -/
theorem enabled_features_get_counterexample :
    enabled_features_get 32772 = .ok [] := by
  rfl

/-- Helper for C9: when no source matches, the matching loop falls through to
its `else` clause and raises the lookup error. -/
theorem findBootSource_none (value : List Char) (sources : List BootSource)
    (h : ∀ s ∈ sources, containsSub value s.structuredBootString = false) :
    findBootSource value sources = .error "This medium is not supported by the device" := by
  induction sources with
  | nil => rfl
  | cons s rest ih =>
    have hs := h s (by simp)
    simp [findBootSource, hs]
    exact ih (fun t ht => h t (by simp [ht]))

/-- Helper for C9: the first matching source wins. -/
theorem findBootSource_first (value : List Char) (pre : List BootSource)
    (s : BootSource) (post : List BootSource)
    (hpre : ∀ p ∈ pre, containsSub value p.structuredBootString = false)
    (hs : containsSub value s.structuredBootString = true) :
    findBootSource value (pre ++ s :: post) = .ok s.instanceID := by
  induction pre with
  | nil => simp [findBootSource, hs]
  | cons p ps ih =>
    have hp := hpre p (by simp)
    simp [findBootSource, hp]
    exact ih (fun t ht => hpre t (by simp [ht]))

/-- Claim C9: when the requested medium is a substring of no supported boot
source's structured boot string, the `medium` setter raises `LookupError`
and no method invocation is attempted; when some source matches, the first
matching source's `InstanceID` is the selector of the `ChangeBootOrder`
invocation. -/
theorem medium_lookup_before_invoke (sources : List BootSource)
    (value : List Char) (ci : String) :
    ((∀ s ∈ sources, containsSub value s.structuredBootString = false) →
      medium_set sources value ci = .error "This medium is not supported by the device") ∧
    (∀ pre s post, sources = pre ++ s :: post →
      (∀ p ∈ pre, containsSub value p.structuredBootString = false) →
      containsSub value s.structuredBootString = true →
      medium_set sources value ci =
        .ok [⟨"ChangeBootOrder", ["InstanceID", s.instanceID, ci]⟩,
             ⟨"SetBootConfigRole", ["InstanceID", "Intel(r) AMT: Boot Configuration 0"]⟩]) := by
  constructor
  · intro h
    simp [medium_set, findBootSource_none value sources h]
  · rintro pre s post rfl hpre hs
    simp [medium_set, findBootSource_first value pre s post hpre hs]

/-- Witness for C9: on a device advertising hard-disk and optical sources,
requesting a medium matching neither raises the lookup error, and requesting
the optical medium selects the second (first matching) source's identifier. -/
theorem medium_lookup_before_invoke_witness :
    medium_set [⟨"a:hdd:x".toList, "i1"⟩, ⟨"a:cd:x".toList, "i2"⟩] "usb".toList "c0" =
      .error "This medium is not supported by the device" ∧
    medium_set [⟨"a:hdd:x".toList, "i1"⟩, ⟨"a:cd:x".toList, "i2"⟩] "cd".toList "c0" =
      .ok [⟨"ChangeBootOrder", ["InstanceID", "i2", "c0"]⟩,
           ⟨"SetBootConfigRole", ["InstanceID", "Intel(r) AMT: Boot Configuration 0"]⟩] := by
  constructor
  · exact (medium_lookup_before_invoke
      [⟨"a:hdd:x".toList, "i1"⟩, ⟨"a:cd:x".toList, "i2"⟩] "usb".toList "c0").1 (by decide)
  · exact (medium_lookup_before_invoke
      [⟨"a:hdd:x".toList, "i1"⟩, ⟨"a:cd:x".toList, "i2"⟩] "cd".toList "c0").2
      [⟨"a:hdd:x".toList, "i1"⟩] ⟨"a:cd:x".toList, "i2"⟩ [] rfl (by decide) (by decide)

end Wry
